import Mathlib

/-!
Shallow embedding of the jira-mcp-rs repository (a Jira MCP server in Rust):
the transport client (`src/jira/mod.rs`), the data model (`src/jira/models.rs`),
the tool layer (`src/server.rs`, `src/tools/params.rs`) and the formatters
(`src/tools/formatters.rs`).  Rust `String` is embedded as Lean `String`
(a wrapper around `List Char`), `u32` counters as `Nat` (the only operations
used are `unwrap_or`/`min`, which cannot overflow), `serde_json::Value` as the
inductive `Json` below, `Option<T>` as `Option`, and fallible operations as
`Except String`.
-/

namespace JiraMcp

/-- Embedding of `serde_json::Value`.  Objects keep their key/value pairs as an
association list (the serialization order of a Rust `HashMap` is unspecified;
the list order here is the insertion order, which is immaterial to every claim,
all of which are about which keys are present). -/
inductive Json where
  | str : String → Json
  | num : Int → Json
  | jbool : Bool → Json
  | null : Json
  | arr : List Json → Json
  | obj : List (String × Json) → Json

/-- Embedding of Rust `char::is_whitespace` (the Unicode `White_Space`
property), listing exactly the code points with that property. -/
def rustIsWhitespace (c : Char) : Bool :=
  [0x9, 0xA, 0xB, 0xC, 0xD, 0x20, 0x85, 0xA0, 0x1680,
   0x2000, 0x2001, 0x2002, 0x2003, 0x2004, 0x2005, 0x2006, 0x2007,
   0x2008, 0x2009, 0x200A, 0x2028, 0x2029, 0x202F, 0x205F, 0x3000].contains c.toNat

/-- Rust `str::trim` on the character list: drop trailing whitespace, then
leading whitespace (the order is irrelevant to the result). -/
def rustTrimList (l : List Char) : List Char :=
  ((l.reverse.dropWhile rustIsWhitespace).reverse).dropWhile rustIsWhitespace

/-- Embedding of Rust `str::trim` as used by the comment-body rendering in
`src/tools/formatters.rs`. -/
def rustTrim (s : String) : String :=
  ⟨rustTrimList s.data⟩

/-- Embedding of Rust `str::trim_end_matches('/')` as used by
`JiraClient::new` (`src/jira/mod.rs` line 23): removes every trailing `'/'`. -/
def trimEndMatchesSlash (s : String) : String :=
  ⟨(s.data.reverse.dropWhile (fun c => c == '/')).reverse⟩

/-- Embedding of the `JiraClient` configuration (`src/jira/mod.rs` lines
9-14).  The `reqwest::Client` connection pool and the precomputed
base64 authorization header are not touched by any claim and are omitted. -/
structure JiraClient where
  base_url : String
deriving DecidableEq, Repr

/-- Embedding of `JiraClient::new` (`src/jira/mod.rs` lines 17-26, identically
`src/jira.rs` lines 14-23): the stored base URL is the argument with every
trailing `'/'` removed. -/
def JiraClient.new (base_url : String) : JiraClient :=
  { base_url := trimEndMatchesSlash base_url }

/-- Embedding of `Status` (`src/jira/models.rs` lines 59-62). -/
structure Status where
  name : String
deriving DecidableEq, Repr

/-- Embedding of `Priority` (`src/jira/models.rs` lines 73-76). -/
structure Priority where
  name : String
deriving DecidableEq, Repr

/-- Embedding of `IssueType` (`src/jira/models.rs` lines 43-47). -/
structure IssueType where
  name : String
  subtask : Bool
deriving DecidableEq, Repr

/-- Embedding of `User` (`src/jira/models.rs` lines 64-71): display name required,
email address and account id optional. -/
structure User where
  display_name : String
  email_address : Option String
  account_id : Option String
deriving DecidableEq, Repr

/-- A text run of a rich-text comment body: the formatter
(`src/tools/formatters.rs` lines 104-110) reads `text_node.text`. -/
structure TextNode where
  text : String
deriving DecidableEq, Repr

/-- A paragraph of a rich-text comment body: the formatter reads
`paragraph.content`, a list of text runs. -/
structure Paragraph where
  content : List TextNode
deriving DecidableEq, Repr

/-- A rich-text comment body (the remote's document envelope): the formatter
reads `body.content`, a list of paragraphs. -/
structure CommentBody where
  content : List Paragraph
deriving DecidableEq, Repr

/-- Embedding of `Comment` (`src/jira/models.rs` lines 83-91), with the body as the typed
document read by `format_issue` (`src/tools/formatters.rs` lines 104-110). -/
structure Comment where
  id : String
  self_url : String
  author : Option User
  created : Option String
  body : Option CommentBody
deriving DecidableEq, Repr

/-- The embedded comment list of an issue, iterated by `format_issue`
(`src/tools/formatters.rs` lines 92-95). -/
structure CommentList where
  comments : List Comment
deriving DecidableEq, Repr

/-- Embedding of `IssueFields` (`src/jira/models.rs` lines 30-41): every field optional.
The `comment` field is the embedded comment list read by `format_issue`
(`src/tools/formatters.rs` line 92 and its tests). -/
structure IssueFields where
  summary : Option String
  status : Option Status
  assignee : Option User
  priority : Option Priority
  issue_type : Option IssueType
  created : Option String
  updated : Option String
  description : Option Json
  comment : Option CommentList

/-- Embedding of `Issue` (`src/jira/models.rs` lines 21-28). -/
structure Issue where
  id : String
  key : String
  self_url : String
  fields : IssueFields

/-- Embedding of `SearchResult` (`src/jira/models.rs` lines 12-19): the three count fields
are optional (`Option<u32>`), the issue list is required. -/
structure SearchResult where
  total : Option Nat
  max_results : Option Nat
  start_at : Option Nat
  issues : List Issue

/-- Embedding of `SearchRequest` (`src/jira/models.rs` lines 4-10): the outgoing body of a
search call. -/
structure SearchRequest where
  jql : String
  max_results : Nat
  fields : List String
deriving DecidableEq, Repr

/-- Embedding of `CommentResponse` (`src/jira/models.rs` lines 50-57). -/
structure CommentResponse where
  start_at : Nat
  max_results : Nat
  total : Nat
  comments : List Comment
deriving DecidableEq, Repr

/-- Embedding of `UpdateIssueRequest` (`src/jira/models.rs` lines 95-99): a
map from field name to JSON value, embedded as an association list with
`HashMap::insert` (replace-on-duplicate) semantics. -/
structure UpdateIssueRequest where
  fields : List (String × Json)

/-- Embedding of `HashMap::insert`: replace the value when the key is already
present, otherwise add the pair. -/
def insertField (m : List (String × Json)) (k : String) (v : Json) :
    List (String × Json) :=
  if m.any (fun p => p.fst == k) then
    m.map (fun p => if p.fst == k then (k, v) else p)
  else
    m ++ [(k, v)]

/-- Embedding of `UpdateIssueRequest::new` (`src/jira/models.rs` lines
102-104): an empty field map. -/
def UpdateIssueRequest.new : UpdateIssueRequest :=
  ⟨[]⟩

/-- Embeds the `summary` setter (`src/jira/models.rs` lines 107-111). -/
def UpdateIssueRequest.summary (u : UpdateIssueRequest) (s : String) :
    UpdateIssueRequest :=
  ⟨insertField u.fields "summary" (Json.str s)⟩

/-- Modelled from the spec: `src/src/jira/models.rs` defines no `description`
setter although `update_issue` in `src/src/server.rs` (line 146) calls one;
the spec's update parameter table (section 4.2) lists `description` among the
optional update fields.  The setter inserts the `description` key; the JSON
shape of its value is not pinned down by the spec and is immaterial to the
claims, which concern only key presence. -/
def UpdateIssueRequest.description (u : UpdateIssueRequest) (d : String) :
    UpdateIssueRequest :=
  ⟨insertField u.fields "description" (Json.str d)⟩

/-- Embeds the `due_date` setter (`src/jira/models.rs` lines 114-118): the
payload key is `duedate`. -/
def UpdateIssueRequest.due_date (u : UpdateIssueRequest) (d : String) :
    UpdateIssueRequest :=
  ⟨insertField u.fields "duedate" (Json.str d)⟩

/-- Embeds the `priority` setter (`src/jira/models.rs` lines 121-127). -/
def UpdateIssueRequest.priority (u : UpdateIssueRequest) (p : String) :
    UpdateIssueRequest :=
  ⟨insertField u.fields "priority" (Json.obj [("name", Json.str p)])⟩

/-- Embeds the `assignee` setter (`src/jira/models.rs` lines 130-136). -/
def UpdateIssueRequest.assignee (u : UpdateIssueRequest) (a : String) :
    UpdateIssueRequest :=
  ⟨insertField u.fields "assignee" (Json.obj [("accountId", Json.str a)])⟩

/-- Embeds the `parent` setter (`src/jira/models.rs` lines 139-145). -/
def UpdateIssueRequest.parent (u : UpdateIssueRequest) (k : String) :
    UpdateIssueRequest :=
  ⟨insertField u.fields "parent" (Json.obj [("key", Json.str k)])⟩

/-- Embeds the `labels` setter (`src/jira/models.rs` lines 148-152). -/
def UpdateIssueRequest.labels (u : UpdateIssueRequest) (ls : List String) :
    UpdateIssueRequest :=
  ⟨insertField u.fields "labels" (Json.arr (ls.map Json.str))⟩

/-- Serde serialization of `UpdateIssueRequest`
(`#[derive(Serialize)]` on `src/jira/models.rs` line 95): an object with the
single key `fields` holding the field map. -/
def serializeUpdate (u : UpdateIssueRequest) : Json :=
  Json.obj [("fields", Json.obj u.fields)]

/-- The keys present in the outgoing update payload. -/
def payloadFieldKeys (u : UpdateIssueRequest) : List String :=
  u.fields.map Prod.fst

/-- Embedding of `SearchIssuesParams` (`src/tools/params.rs` lines 3-9). -/
structure SearchIssuesParams where
  jql : String
  max_results : Option Nat
deriving DecidableEq, Repr

/-- Embedding of `GetIssueParams` (`src/tools/params.rs` lines 11-15). -/
structure GetIssueParams where
  issue_key : String
deriving DecidableEq, Repr

/-- Embedding of `AddCommentParams` (`src/tools/params.rs` lines 17-23). -/
structure AddCommentParams where
  issue_key : String
  comment : String
deriving DecidableEq, Repr

/-- Modelled from the spec: `GetChildrenParams` is used by `get_children` in
`src/src/server.rs` (lines 91-97) but its declaration is absent from
`src/src/tools/params.rs`; the spec's parameter table (section 4.2) gives
`get_children` a required parent key and an optional `max_results`. -/
structure GetChildrenParams where
  parent_key : String
  max_results : Option Nat
deriving DecidableEq, Repr

/-- Modelled from the spec: `GetCommentsParams` is used by `get_comments` in
`src/src/server.rs` (lines 110-120) but its declaration is absent from
`src/src/tools/params.rs`; the spec's parameter table (section 4.2) gives
`get_comments` a required issue key and optional `start_at` and
`max_results`. -/
structure GetCommentsParams where
  issue_key : String
  start_at : Option Nat
  max_results : Option Nat
deriving DecidableEq, Repr

/-- Embedding of `UpdateIssueParams` (`src/tools/params.rs` lines 25-41).
The `description` field is read by `update_issue` in `src/src/server.rs`
(line 145) and listed in the spec's update parameter table, though absent from
the `UpdateIssueParams` declaration under `src/`. -/
structure UpdateIssueParams where
  issue_key : String
  summary : Option String
  description : Option String
  due_date : Option String
  priority : Option String
  assignee_account_id : Option String
  parent_key : Option String
  labels : Option (List String)
deriving DecidableEq, Repr

/-- Renders a user with the parenthesized account id, the closure repeated at
`src/tools/formatters.rs` lines 33, 61, 99 and 131:
`format!("{} ({})", a.display_name, a.account_id.as_deref().unwrap_or("No ID"))`. -/
def formatUserParen (a : User) : String :=
  a.display_name ++ " (" ++ a.account_id.getD "No ID" ++ ")"

/-- The inner loop of the comment-body flattening (`src/tools/formatters.rs`
lines 105-110): append every text run of the paragraph, then a newline. -/
def flattenParagraph (acc : String) (p : Paragraph) : String :=
  (p.content.foldl (fun a tn => a ++ tn.text) acc) ++ "\n"

/-- Flattens a rich-text body to plain text (`src/tools/formatters.rs` lines
103-111): concatenate each paragraph's text runs, one paragraph per line. -/
def flattenBody (b : CommentBody) : String :=
  b.content.foldl flattenParagraph ""

/-- The flattened text of an optional body (`body_text` after the loop at
`src/tools/formatters.rs` lines 103-111): the empty string when the body is
absent. -/
def flattenOptBody (b : Option CommentBody) : String :=
  match b with
  | some body => flattenBody body
  | none => ""

/-- The `body_text` value after the emptiness check
(`src/tools/formatters.rs` lines 112-114): the placeholder `No content`
replaces an empty flattening. -/
def commentBodyText (b : Option CommentBody) : String :=
  if flattenOptBody b = "" then "No content" else flattenOptBody b

/-- The comment body as it appears in the rendered output
(`src/tools/formatters.rs` line 118 applies `body_text.trim()`). -/
def renderedCommentBody (b : Option CommentBody) : String :=
  rustTrim (commentBodyText b)

/-- Renders one comment of the issue's comment section
(`src/tools/formatters.rs` lines 95-119). -/
def renderComment (c : Comment) : String :=
  let author := (c.author.map formatUserParen).getD "Unknown"
  let created := c.created.getD "Unknown"
  "### Comment by " ++ author ++ " (" ++ created ++ ")\n" ++
    renderedCommentBody c.body ++ "\n\n"

/-- Renders the comment section of an issue (`src/tools/formatters.rs` lines
92-122): empty unless an embedded comment list with at least one comment is
present. -/
def commentsSection (fields : IssueFields) : String :=
  match fields.comment with
  | some cl =>
      if cl.comments.isEmpty then ""
      else "\n## Comments\n\n" ++ cl.comments.foldl (fun acc c => acc ++ renderComment c) ""
  | none => ""

/-- Embedding of `format_issue` (`src/tools/formatters.rs` lines 45-125). -/
def formatIssue (i : Issue) : String :=
  let status := (i.fields.status.map Status.name).getD "Unknown"
  let summary := i.fields.summary.getD "No summary"
  let assignee := (i.fields.assignee.map formatUserParen).getD "Unassigned"
  let priority := (i.fields.priority.map Priority.name).getD "None"
  let issue_type := (i.fields.issue_type.map IssueType.name).getD "Unknown"
  let created := i.fields.created.getD "Unknown"
  let updated := i.fields.updated.getD "Unknown"
  "# " ++ i.key ++ " - " ++ summary ++ "\n\n**Type:** " ++ issue_type ++
    "\n**Status:** " ++ status ++ "\n**Assignee:** " ++ assignee ++
    "\n**Priority:** " ++ priority ++ "\n**Created:** " ++ created ++
    "\n**Updated:** " ++ updated ++ "\n**URL:** " ++ i.self_url ++ "\n" ++
    commentsSection i.fields

/-- Embedding of `format_update_result` (`src/tools/formatters.rs` lines
175-185). -/
def formatUpdateResult (issue_key : String) (updated_fields : List String) :
    String :=
  if updated_fields.isEmpty then
    "No fields were updated for " ++ issue_key
  else
    "Issue " ++ issue_key ++ " updated successfully.\n\n**Updated fields:** " ++
      String.intercalate ", " updated_fields

/-- Renders an optional result count. -/
def showCount (c : Option Nat) : String :=
  match c with
  | some n => toString n
  | none => "unknown"

/-- Renders one line of the search listing, per issue
(`src/tools/formatters.rs` lines 11-40). -/
def searchIssueLine (i : Issue) : String :=
  let status := (i.fields.status.map Status.name).getD "Unknown"
  let issue_type := (i.fields.issue_type.map IssueType.name).getD "Unknown"
  let summary := i.fields.summary.getD "No summary"
  let assignee := (i.fields.assignee.map formatUserParen).getD "Unassigned"
  "- **" ++ i.key ++ "** [" ++ issue_type ++ "/" ++ status ++ "] " ++ summary ++
    "\n  Assignee: " ++ assignee ++ "\n\n"

/-- Modelled from the spec: the `format_search_result` compatible with the
optional-count `SearchResult` of `src/src/jira/models.rs` is absent from
`src/` — the `format_search_result` in `src/src/tools/formatters.rs` (lines
3-9) targets the older iteration whose `total` is a plain `u32` and is
type-incompatible with the current model.  Per the spec, an absent count
"must be treated as 'unknown', not zero"; the header therefore renders an
absent count as `unknown` and a present count as its number, and the per-issue
lines follow `src/src/tools/formatters.rs` lines 11-40. -/
def formatSearchResult (r : SearchResult) : String :=
  "Found " ++ showCount r.total ++ " issues (showing " ++
    toString r.issues.length ++ " of " ++ showCount r.total ++ "):\n\n" ++
    r.issues.foldl (fun acc i => acc ++ searchIssueLine i) ""

/-- A remote HTTP response, reduced to what the client inspects: the status
code and the body read as text (`response.status()` / `response.text()`). -/
structure HttpResponse where
  status : Nat
  body : String
deriving DecidableEq, Repr

/-- Embedding of `reqwest::StatusCode::is_success`: `200 <= status < 300`. -/
def isSuccessStatus (status : Nat) : Bool :=
  200 ≤ status && status < 300

/-- Canonical reason phrases of `reqwest::StatusCode`'s `Display`, for the
common codes (the display is the number alone when the code has no canonical
reason, so the table's extent never affects which digits appear). -/
def canonicalReason (status : Nat) : Option String :=
  match status with
  | 200 => some "OK"
  | 201 => some "Created"
  | 204 => some "No Content"
  | 301 => some "Moved Permanently"
  | 302 => some "Found"
  | 304 => some "Not Modified"
  | 400 => some "Bad Request"
  | 401 => some "Unauthorized"
  | 403 => some "Forbidden"
  | 404 => some "Not Found"
  | 405 => some "Method Not Allowed"
  | 409 => some "Conflict"
  | 410 => some "Gone"
  | 422 => some "Unprocessable Entity"
  | 429 => some "Too Many Requests"
  | 500 => some "Internal Server Error"
  | 502 => some "Bad Gateway"
  | 503 => some "Service Unavailable"
  | 504 => some "Gateway Timeout"
  | _ => none

/-- The part of the status display after the numeric code: a space and the
canonical reason when one exists, empty otherwise. -/
def reasonSuffix (status : Nat) : String :=
  match canonicalReason status with
  | some r => " " ++ r
  | none => ""

/-- Embedding of `reqwest::StatusCode`'s `Display` (used by the `{}` in the
`anyhow::bail!` format): the numeric code, followed by the canonical reason
when one exists, e.g. `404 Not Found`. -/
def statusDisplay (status : Nat) : String :=
  toString status ++ reasonSuffix status

/-- The error text raised on a non-success status, identical in every client
method (`src/jira/mod.rs` lines 54-58, 75-79, 108-112, 148-152, 188-192):
`anyhow::bail!("Jira API error ({}): {}", status, error_text)`. -/
def jiraApiError (resp : HttpResponse) : String :=
  "Jira API error (" ++ statusDisplay resp.status ++ "): " ++ resp.body

/-- The status-classification step shared by every client method: a success
status yields the deserialized value (supplied here as `parsed`, since the
claims do not depend on body deserialization on the success path), any other
status yields the typed failure carrying the status and body text. -/
def remoteOutcome {α : Type} (resp : HttpResponse) (parsed : α) :
    Except String α :=
  if isSuccessStatus resp.status then Except.ok parsed
  else Except.error (jiraApiError resp)

/-- A tool call result: a single text block, marked success or error
(`CallToolResult::success` / `CallToolResult::error` with one
`Content::text`). -/
inductive ToolResult where
  | success : String → ToolResult
  | error : String → ToolResult
deriving DecidableEq, Repr

/-- The effective page size computed by the tool layer
(`src/server.rs` lines 38, 95, 115):
`params.max_results.unwrap_or(50).min(100)`. -/
def clampMaxResults (m : Option Nat) : Nat :=
  min (m.getD 50) 100

/-- The constant field-selection list of `search_issues`
(`src/jira/mod.rs` lines 34-42). -/
def searchFieldSelection : List String :=
  ["summary", "status", "assignee", "priority", "issuetype", "created", "updated"]

/-- The `SearchRequest` the tool layer hands to the transport client for a
`search_issues` call (`src/server.rs` lines 38-40 feeding
`src/jira/mod.rs` lines 28-43). -/
def searchIssuesSentRequest (p : SearchIssuesParams) : SearchRequest :=
  { jql := p.jql
    max_results := clampMaxResults p.max_results
    fields := searchFieldSelection }

/-- Embedding of the `search_issues` tool (`src/server.rs` lines 34-50),
parameterized by the remote response and (on the success path) the
deserialized result. -/
def searchIssuesTool (resp : HttpResponse)
    (parsed : SearchResult) : ToolResult :=
  match remoteOutcome resp parsed with
  | Except.ok r => ToolResult.success (formatSearchResult r)
  | Except.error e => ToolResult.error ("Failed to search issues: " ++ e)

/-- Embedding of the `get_issue` tool (`src/server.rs` lines 53-67),
parameterized by the remote response and (on the success path) the
deserialized issue. -/
def getIssueTool (resp : HttpResponse) (parsed : Issue) : ToolResult :=
  match remoteOutcome resp parsed with
  | Except.ok issue => ToolResult.success (formatIssue issue)
  | Except.error e => ToolResult.error ("Failed to get issue: " ++ e)

/-- The `(parent_key, limit)` pair `get_children` hands to the transport
client (`src/server.rs` lines 95-97). -/
def getChildrenSentCall (p : GetChildrenParams) : String × Nat :=
  (p.parent_key, clampMaxResults p.max_results)

/-- The `(issue_key, start_at, limit)` triple `get_comments` hands to the
transport client (`src/server.rs` lines 114-119). -/
def getCommentsSentCall (p : GetCommentsParams) : String × Nat × Nat :=
  (p.issue_key, p.start_at.getD 0, clampMaxResults p.max_results)

/-- The URL built by `JiraClient::get_comments` (`src/jira/mod.rs` lines
135-138), carrying the pagination values as query parameters. -/
def getCommentsUrl (c : JiraClient) (issue_key : String)
    (start_at max_results : Nat) : String :=
  c.base_url ++ "/rest/api/3/issue/" ++ issue_key ++ "/comment?startAt=" ++
    toString start_at ++ "&maxResults=" ++ toString max_results

/-- The builder sequence of `update_issue` (`src/server.rs` lines 138-169):
apply each setter whose parameter is present, recording the display name of
each updated field. -/
def updateIssueBuild (p : UpdateIssueParams) :
    UpdateIssueRequest × List String :=
  let u := UpdateIssueRequest.new
  let fs : List String := []
  let (u, fs) := match p.summary with
    | some s => (u.summary s, fs ++ ["summary"])
    | none => (u, fs)
  let (u, fs) := match p.description with
    | some d => (u.description d, fs ++ ["description"])
    | none => (u, fs)
  let (u, fs) := match p.due_date with
    | some d => (u.due_date d, fs ++ ["due_date"])
    | none => (u, fs)
  let (u, fs) := match p.priority with
    | some pr => (u.priority pr, fs ++ ["priority"])
    | none => (u, fs)
  let (u, fs) := match p.assignee_account_id with
    | some a => (u.assignee a, fs ++ ["assignee"])
    | none => (u, fs)
  let (u, fs) := match p.parent_key with
    | some k => (u.parent k, fs ++ ["parent"])
    | none => (u, fs)
  let (u, fs) := match p.labels with
    | some ls => (u.labels ls, fs ++ ["labels"])
    | none => (u, fs)
  (u, fs)

/-- Embedding of the `update_issue` tool (`src/server.rs` lines 134-187).
The second component is the call made to the transport client: `none` when no
network call happens, otherwise the issue key and the update payload sent. -/
def updateIssueTool (p : UpdateIssueParams) (resp : HttpResponse) :
    ToolResult × Option (String × UpdateIssueRequest) :=
  let b := updateIssueBuild p
  if b.2.isEmpty then
    (ToolResult.error
      "No fields provided to update. Please specify at least one field to update.",
     none)
  else
    match remoteOutcome resp () with
    | Except.ok _ =>
        (ToolResult.success (formatUpdateResult p.issue_key b.2),
         some (p.issue_key, b.1))
    | Except.error e =>
        (ToolResult.error ("Failed to update issue: " ++ e),
         some (p.issue_key, b.1))

/-- The rich-text document envelope `add_comment` builds around the input
text (`src/jira/mod.rs` lines 161-177): a `doc` whose content is a single
paragraph containing a single text run holding the text unchanged. -/
def addCommentBodyJson (t : String) : Json :=
  Json.obj
    [("type", Json.str "doc"),
     ("version", Json.num 1),
     ("content", Json.arr
       [Json.obj
         [("type", Json.str "paragraph"),
          ("content", Json.arr
            [Json.obj
              [("type", Json.str "text"),
               ("text", Json.str t)]])]])]

/-- Looks a key up in a JSON object; `none` on any other JSON shape. -/
def jsonField (j : Json) (k : String) : Option Json :=
  match j with
  | Json.obj kvs => kvs.lookup k
  | _ => none

/-- Deserializes a JSON string. -/
def parseString (j : Json) : Option String :=
  match j with
  | Json.str s => some s
  | _ => none

/-- Deserializes a JSON boolean. -/
def parseBool (j : Json) : Option Bool :=
  match j with
  | Json.jbool b => some b
  | _ => none

/-- Deserializes a `u32`: an integer in `[0, 2^32)`. -/
def parseNat (j : Json) : Option Nat :=
  match j with
  | Json.num n => if 0 ≤ n ∧ n < 2 ^ 32 then some n.toNat else none
  | _ => none

/-- Serde's handling of an `Option<T>` struct field: an absent key and an
explicit `null` both deserialize to `None`; any other value must deserialize
as `T`. -/
def parseOptWith {α : Type} (f : Json → Option α) (o : Option Json) :
    Option (Option α) :=
  match o with
  | none => some none
  | some Json.null => some none
  | some j => (f j).map some

/-- Deserializes a text run of a comment body: an object whose `text` key
holds a string. -/
def parseTextNode (j : Json) : Option TextNode :=
  match jsonField j "text" with
  | some (Json.str t) => some ⟨t⟩
  | _ => none

/-- Deserializes a paragraph of a comment body: an object whose `content` key
holds an array of text runs. -/
def parseParagraph (j : Json) : Option Paragraph :=
  match jsonField j "content" with
  | some (Json.arr items) => (items.mapM parseTextNode).map Paragraph.mk
  | _ => none

/-- Deserializes a rich-text comment body: an object whose `content` key
holds an array of paragraphs. -/
def parseCommentBody (j : Json) : Option CommentBody :=
  match jsonField j "content" with
  | some (Json.arr items) => (items.mapM parseParagraph).map CommentBody.mk
  | _ => none

/-- Deserializes `Status` (`src/jira/models.rs` lines 59-62). -/
def parseStatus (j : Json) : Option Status :=
  match j with
  | Json.obj _ => ((jsonField j "name").bind parseString).map Status.mk
  | _ => none

/-- Deserializes `Priority` (`src/jira/models.rs` lines 73-76). -/
def parsePriority (j : Json) : Option Priority :=
  match j with
  | Json.obj _ => ((jsonField j "name").bind parseString).map Priority.mk
  | _ => none

/-- Deserializes `IssueType` (`src/jira/models.rs` lines 43-47). -/
def parseIssueType (j : Json) : Option IssueType :=
  match j with
  | Json.obj _ => do
      let name ← (jsonField j "name").bind parseString
      let subtask ← (jsonField j "subtask").bind parseBool
      pure ⟨name, subtask⟩
  | _ => none

/-- Deserializes `User` (`src/jira/models.rs` lines 64-71): camelCase keys,
`displayName` required, `emailAddress` and `accountId` optional. -/
def parseUser (j : Json) : Option User :=
  match j with
  | Json.obj _ => do
      let display_name ← (jsonField j "displayName").bind parseString
      let email_address ← parseOptWith parseString (jsonField j "emailAddress")
      let account_id ← parseOptWith parseString (jsonField j "accountId")
      pure ⟨display_name, email_address, account_id⟩
  | _ => none

/-- Deserializes `IssueFields` (`src/jira/models.rs` lines 30-41): every
field optional, `issuetype` renamed.  `models.rs` declares no `comment`
field, so deserialization leaves the embedded comment list empty. -/
def parseIssueFields (j : Json) : Option IssueFields :=
  match j with
  | Json.obj _ => do
      let summary ← parseOptWith parseString (jsonField j "summary")
      let status ← parseOptWith parseStatus (jsonField j "status")
      let assignee ← parseOptWith parseUser (jsonField j "assignee")
      let priority ← parseOptWith parsePriority (jsonField j "priority")
      let issue_type ← parseOptWith parseIssueType (jsonField j "issuetype")
      let created ← parseOptWith parseString (jsonField j "created")
      let updated ← parseOptWith parseString (jsonField j "updated")
      let description ← parseOptWith (fun v => some v) (jsonField j "description")
      pure ⟨summary, status, assignee, priority, issue_type, created, updated,
            description, none⟩
  | _ => none

/-- Deserializes `Issue` (`src/jira/models.rs` lines 21-28): `id`, `key` and
`self` (renamed to `self_url`) required strings, `fields` required. -/
def parseIssue (j : Json) : Option Issue :=
  match j with
  | Json.obj _ => do
      let id ← (jsonField j "id").bind parseString
      let key ← (jsonField j "key").bind parseString
      let self_url ← (jsonField j "self").bind parseString
      let fields ← (jsonField j "fields").bind parseIssueFields
      pure ⟨id, key, self_url, fields⟩
  | _ => none

/-- Deserializes `SearchResult` (`src/jira/models.rs` lines 12-19): camelCase
keys, the three counts optional `u32`, `issues` a required array. -/
def parseSearchResult (j : Json) : Option SearchResult :=
  match j with
  | Json.obj _ => do
      let total ← parseOptWith parseNat (jsonField j "total")
      let max_results ← parseOptWith parseNat (jsonField j "maxResults")
      let start_at ← parseOptWith parseNat (jsonField j "startAt")
      let issues ← match jsonField j "issues" with
        | some (Json.arr items) => items.mapM parseIssue
        | _ => none
      pure ⟨total, max_results, start_at, issues⟩
  | _ => none

/-- The payload keys that correspond to the setters `update_issue` invokes:
one key per supplied optional parameter, in the order the handler checks
them (`src/server.rs` lines 141-169; the `due_date` setter inserts the
payload key `duedate`). -/
def expectedUpdateKeys (p : UpdateIssueParams) : List String :=
  (if p.summary.isSome then ["summary"] else []) ++
  (if p.description.isSome then ["description"] else []) ++
  (if p.due_date.isSome then ["duedate"] else []) ++
  (if p.priority.isSome then ["priority"] else []) ++
  (if p.assignee_account_id.isSome then ["assignee"] else []) ++
  (if p.parent_key.isSome then ["parent"] else []) ++
  (if p.labels.isSome then ["labels"] else [])

/-! ## Theorems -/

/-- C1: for every `UpdateIssueRequest` built by `update_issue` via the named
setters, the serialized payload's fields map contains exactly the keys whose
setters were invoked (one key per supplied optional parameter), and the
payload actually sent to the transport client is that request — a field never
set does not appear in it. -/
theorem c1_update_payload_keys (p : UpdateIssueParams) :
    payloadFieldKeys (updateIssueBuild p).1 = expectedUpdateKeys p ∧
    (∀ (resp : HttpResponse) (call : String × UpdateIssueRequest),
      (updateIssueTool p resp).2 = some call →
      payloadFieldKeys call.2 = expectedUpdateKeys p) := by
  obtain ⟨k, s, d, dd, pr, a, pk, ls⟩ := p
  have h1 : payloadFieldKeys (updateIssueBuild ⟨k, s, d, dd, pr, a, pk, ls⟩).1 =
      expectedUpdateKeys ⟨k, s, d, dd, pr, a, pk, ls⟩ := by
    cases s <;> cases d <;> cases dd <;> cases pr <;> cases a <;> cases pk <;>
      cases ls <;> rfl
  refine ⟨h1, ?_⟩
  intro resp call h
  unfold updateIssueTool at h
  by_cases he : (updateIssueBuild ⟨k, s, d, dd, pr, a, pk, ls⟩).2.isEmpty
  · simp only [he, if_true] at h
    exact absurd h (by simp)
  · simp only [he, if_false] at h
    cases hr : remoteOutcome resp () with
    | ok u => rw [hr] at h; injection h with h; exact h ▸ h1
    | error e => rw [hr] at h; injection h with h; exact h ▸ h1

/-- Witness for C1 at a concrete call that sets `summary` and `labels`. -/
theorem c1_update_payload_keys_witness :
    payloadFieldKeys
      (updateIssueBuild ⟨"PROJ-1", some "s", none, none, none, none, none,
        some ["a", "b"]⟩).1 = ["summary", "labels"] ∧
    payloadFieldKeys ("PROJ-1",
      (updateIssueBuild ⟨"PROJ-1", some "s", none, none, none, none, none,
        some ["a", "b"]⟩).1).2 = ["summary", "labels"] :=
  ⟨((c1_update_payload_keys ⟨"PROJ-1", some "s", none, none, none, none, none,
      some ["a", "b"]⟩).1).trans rfl,
   (((c1_update_payload_keys ⟨"PROJ-1", some "s", none, none, none, none, none,
      some ["a", "b"]⟩).2 ⟨204, ""⟩ ("PROJ-1",
      (updateIssueBuild ⟨"PROJ-1", some "s", none, none, none, none, none,
        some ["a", "b"]⟩).1)) rfl).trans rfl⟩

/-- C2: a call to the `update_issue` tool in which none of the optional
fields is supplied returns an error result, and no call is made to the
transport client, whatever the remote would have answered. -/
theorem c2_update_no_fields_no_call (p : UpdateIssueParams)
    (resp : HttpResponse)
    (hs : p.summary = none) (hd : p.description = none)
    (hdd : p.due_date = none) (hpr : p.priority = none)
    (ha : p.assignee_account_id = none) (hpk : p.parent_key = none)
    (hls : p.labels = none) :
    updateIssueTool p resp =
      (ToolResult.error
        "No fields provided to update. Please specify at least one field to update.",
       none) := by
  obtain ⟨k, s, d, dd, pr, a, pk, ls⟩ := p
  simp only at hs hd hdd hpr ha hpk hls
  subst hs hd hdd hpr ha hpk hls
  rfl

/-- Witness for C2 at a concrete empty update call. -/
theorem c2_update_no_fields_no_call_witness :
    updateIssueTool ⟨"PROJ-1", none, none, none, none, none, none, none⟩
      ⟨204, ""⟩ =
      (ToolResult.error
        "No fields provided to update. Please specify at least one field to update.",
       none) :=
  c2_update_no_fields_no_call _ _ rfl rfl rfl rfl rfl rfl rfl

/-- C3: the effective limit the tool layer passes to the transport client is
50 when `max_results` is omitted and `min(v, 100)` when `v` is supplied — in
particular 500 clamps to 100 — and never exceeds 100, for `search_issues`,
`get_children` and `get_comments` alike. -/
theorem c3_max_results_clamp :
    (∀ jql, (searchIssuesSentRequest ⟨jql, none⟩).max_results = 50) ∧
    (∀ jql v, (searchIssuesSentRequest ⟨jql, some v⟩).max_results = min v 100) ∧
    (∀ jql, (searchIssuesSentRequest ⟨jql, some 500⟩).max_results = 100) ∧
    (∀ p : SearchIssuesParams, (searchIssuesSentRequest p).max_results ≤ 100) ∧
    (∀ k, (getChildrenSentCall ⟨k, none⟩).2 = 50) ∧
    (∀ k v, (getChildrenSentCall ⟨k, some v⟩).2 = min v 100) ∧
    (∀ p : GetChildrenParams, (getChildrenSentCall p).2 ≤ 100) ∧
    (∀ k s, (getCommentsSentCall ⟨k, s, none⟩).2.2 = 50) ∧
    (∀ k s v, (getCommentsSentCall ⟨k, s, some v⟩).2.2 = min v 100) ∧
    (∀ p : GetCommentsParams, (getCommentsSentCall p).2.2 ≤ 100) := by
  refine ⟨fun _ => rfl, fun _ _ => rfl, fun _ => rfl, fun p => ?_,
          fun _ => rfl, fun _ _ => rfl, fun p => ?_,
          fun _ _ => rfl, fun _ _ _ => rfl, fun p => ?_⟩ <;>
    exact Nat.min_le_right _ _

/-- C9: the clamp has no lower bound — an explicitly supplied value `v ≤ 100`
(including 0) is forwarded exactly, and the default of 50 applies only when
the parameter is omitted. -/
theorem c9_clamp_no_lower_bound :
    (∀ jql v, v ≤ 100 →
      (searchIssuesSentRequest ⟨jql, some v⟩).max_results = v) ∧
    (∀ jql, (searchIssuesSentRequest ⟨jql, some 0⟩).max_results = 0) ∧
    (∀ jql, (searchIssuesSentRequest ⟨jql, none⟩).max_results = 50) ∧
    (∀ k v, v ≤ 100 → (getChildrenSentCall ⟨k, some v⟩).2 = v) ∧
    (∀ k s v, v ≤ 100 → (getCommentsSentCall ⟨k, s, some v⟩).2.2 = v) ∧
    (∀ k s, (getCommentsSentCall ⟨k, s, some 0⟩).2.2 = 0) := by
  refine ⟨fun jql v hv => ?_, fun _ => rfl, fun _ => rfl,
          fun k v hv => ?_, fun k s v hv => ?_, fun _ _ => rfl⟩ <;>
    simp [searchIssuesSentRequest, getChildrenSentCall, getCommentsSentCall,
      clampMaxResults, Nat.min_eq_left hv]

/-- Witness for C9: a caller-supplied 0 is forwarded as 0, not replaced by
the default. -/
theorem c9_clamp_no_lower_bound_witness :
    (searchIssuesSentRequest ⟨"project = P", some 0⟩).max_results = 0 :=
  c9_clamp_no_lower_bound.1 "project = P" 0 (by decide)

/-- The stored base URL is the input with its trailing-slash run dropped. -/
theorem base_url_eq_rdropWhile (s : String) :
    (JiraClient.new s).base_url.data = s.data.rdropWhile (fun c => c == '/') :=
  rfl

/-- C8: the base URL stored at client construction is the input with every
trailing `'/'` removed — the stored value never ends in `'/'` — and an input
without a trailing slash is stored unchanged. -/
theorem c8_base_url_trailing_slashes (s : String) :
    (∃ k, s.data = (JiraClient.new s).base_url.data ++ List.replicate k '/') ∧
    (∀ c, (JiraClient.new s).base_url.data.getLast? = some c → c ≠ '/') ∧
    (s.data.getLast? ≠ some '/' → JiraClient.new s = ⟨s⟩) := by
  refine ⟨?_, ?_, ?_⟩
  · refine ⟨(s.data.reverse.takeWhile (fun c => c == '/')).length, ?_⟩
    conv_lhs => rw [← s.data.reverse_reverse,
      ← List.takeWhile_append_dropWhile (fun c => c == '/') s.data.reverse]
    rw [List.reverse_append, base_url_eq_rdropWhile]
    have hrep : s.data.reverse.takeWhile (fun c => c == '/') =
        List.replicate (s.data.reverse.takeWhile (fun c => c == '/')).length '/' :=
      List.eq_replicate_length.mpr fun b hb => by
        simpa using List.mem_takeWhile_imp hb
    rw [List.rdropWhile]
    congr 1
    rw [hrep, List.reverse_replicate]
    simp
  · intro c hc
    by_cases hnil : (JiraClient.new s).base_url.data = []
    · rw [hnil] at hc
      exact absurd hc (by simp)
    · rw [List.getLast?_eq_getLast_of_ne_nil hnil] at hc
      have hlast := List.rdropWhile_last_not (fun c => c == '/') s.data
        (by rw [← base_url_eq_rdropWhile]; exact hnil)
      intro hslash
      apply hlast
      have : ((JiraClient.new s).base_url.data.getLast hnil) = '/' := by
        injection hc with hc
        rw [hc, hslash]
      simpa [base_url_eq_rdropWhile] using congrArg (fun x => x == '/') this
  · intro hne
    have hfix : s.data.rdropWhile (fun c => c == '/') = s.data :=
      List.rdropWhile_eq_self_iff.mpr (by
        intro hl hp
        apply hne
        rw [List.getLast?_eq_getLast_of_ne_nil hl]
        have : s.data.getLast hl = '/' := by simpa using hp
        rw [this])
    have hdata : (trimEndMatchesSlash s).data = s.data := hfix
    have hstr : trimEndMatchesSlash s = s := by
      cases s
      exact congrArg String.mk hdata
    rw [JiraClient.new, hstr]

/-- Witness for C8 at a slash-ended and a slash-free base URL. -/
theorem c8_base_url_trailing_slashes_witness :
    (∃ k, ("https://x.net///" : String).data =
      (JiraClient.new "https://x.net///").base_url.data ++ List.replicate k '/') ∧
    JiraClient.new "https://x.net" = ⟨"https://x.net"⟩ :=
  ⟨(c8_base_url_trailing_slashes "https://x.net///").1,
   (c8_base_url_trailing_slashes "https://x.net").2.2 (by decide)⟩

/-- C4: on any non-2xx remote status, the transport step returns the typed
failure carrying the status and body (it is a total function — no panic), the
tools convert it into an error result of the shape
`Failed to <operation>: <detail>`, and that text contains the numeric status
code. -/
theorem c4_remote_error_surfaced (resp : HttpResponse)
    (h : ¬(200 ≤ resp.status ∧ resp.status < 300)) :
    (∀ parsed : Issue,
      remoteOutcome resp parsed = Except.error (jiraApiError resp) ∧
      getIssueTool resp parsed =
        ToolResult.error ("Failed to get issue: " ++ jiraApiError resp)) ∧
    (∀ parsed : SearchResult,
      remoteOutcome resp parsed = Except.error (jiraApiError resp) ∧
      searchIssuesTool resp parsed =
        ToolResult.error ("Failed to search issues: " ++ jiraApiError resp)) ∧
    (∃ p q, "Failed to get issue: " ++ jiraApiError resp =
      p ++ toString resp.status ++ q) ∧
    (∃ p q, "Failed to search issues: " ++ jiraApiError resp =
      p ++ toString resp.status ++ q) := by
  have hb : isSuccessStatus resp.status = false := by
    simpa [isSuccessStatus] using h
  have houtcome : ∀ {α : Type} (parsed : α),
      remoteOutcome resp parsed = Except.error (jiraApiError resp) := by
    intro α parsed
    simp [remoteOutcome, hb]
  refine ⟨fun parsed => ⟨houtcome parsed, ?_⟩,
          fun parsed => ⟨houtcome parsed, ?_⟩, ?_, ?_⟩
  · rw [getIssueTool, houtcome]
  · rw [searchIssuesTool, houtcome]
  · refine ⟨"Failed to get issue: " ++ "Jira API error (",
      reasonSuffix resp.status ++ "): " ++ resp.body, ?_⟩
    simp only [jiraApiError, statusDisplay, String.append_assoc]
  · refine ⟨"Failed to search issues: " ++ "Jira API error (",
      reasonSuffix resp.status ++ "): " ++ resp.body, ?_⟩
    simp only [jiraApiError, statusDisplay, String.append_assoc]

/-- Witness for C4: a 404 on `get_issue` and a 401 on `search_issues`. -/
theorem c4_remote_error_surfaced_witness :
    getIssueTool ⟨404, "Issue not found"⟩
        ⟨"1", "K", "u", ⟨none, none, none, none, none, none, none, none, none⟩⟩ =
      ToolResult.error
        "Failed to get issue: Jira API error (404 Not Found): Issue not found" ∧
    searchIssuesTool ⟨401, "Unauthorized"⟩ ⟨none, none, none, []⟩ =
      ToolResult.error
        "Failed to search issues: Jira API error (401 Unauthorized): Unauthorized" :=
  ⟨(((c4_remote_error_surfaced ⟨404, "Issue not found"⟩ (by decide)).1
      ⟨"1", "K", "u", ⟨none, none, none, none, none, none, none, none, none⟩⟩).2).trans
    (by decide),
   (((c4_remote_error_surfaced ⟨401, "Unauthorized"⟩ (by decide)).2.1
      ⟨none, none, none, []⟩).2).trans (by decide)⟩

/-- Rewrites the trim into Mathlib's `rdropWhile`/`dropWhile` combination. -/
theorem rustTrimList_eq (l : List Char) :
    rustTrimList l = (l.rdropWhile rustIsWhitespace).dropWhile rustIsWhitespace :=
  rfl

/-- A trailing whitespace character is removed by the trim. -/
theorem rustTrimList_concat_ws (l : List Char) (c : Char)
    (hc : rustIsWhitespace c = true) :
    rustTrimList (l ++ [c]) = rustTrimList l := by
  rw [rustTrimList_eq, rustTrimList_eq, List.rdropWhile_concat, if_pos hc]

/-- Trimming absorbs the `'\n'` the flattening appends after a paragraph. -/
theorem rustTrim_append_newline (t : String) :
    rustTrim (t ++ "\n") = rustTrim t := by
  unfold rustTrim
  congr 1
  rw [String.data_append]
  exact rustTrimList_concat_ws t.data '\n' (by decide)

/-- Trimming an all-whitespace character list leaves nothing. -/
theorem rustTrimList_all_ws (l : List Char)
    (h : ∀ c ∈ l, rustIsWhitespace c) : rustTrimList l = [] := by
  rw [rustTrimList_eq, List.rdropWhile_eq_nil_iff.mpr h]
  rfl

/-- Embedding of the fact that `str::trim` of an all-whitespace string is
empty. -/
theorem rustTrim_all_ws (s : String)
    (h : s.data.all rustIsWhitespace) : rustTrim s = "" := by
  unfold rustTrim
  rw [rustTrimList_all_ws s.data (by simpa [List.all_eq_true] using h)]

/-- The head of a trimmed list is not whitespace. -/
theorem rustTrimList_head_not_ws (l : List Char) (c : Char)
    (h : (rustTrimList l).head? = some c) : rustIsWhitespace c = false := by
  rw [rustTrimList_eq] at h
  have hne : (l.rdropWhile rustIsWhitespace).dropWhile rustIsWhitespace ≠ [] := by
    intro hnil
    rw [hnil] at h
    exact absurd h (by simp)
  have hhead := List.head_dropWhile_not rustIsWhitespace
    (l.rdropWhile rustIsWhitespace) hne
  rw [List.head?_eq_head hne] at h
  injection h with h
  rw [← h]
  exact hhead

/-- The last element of a trimmed list is not whitespace. -/
theorem rustTrimList_getLast_not_ws (l : List Char) (c : Char)
    (h : (rustTrimList l).getLast? = some c) : rustIsWhitespace c = false := by
  rw [rustTrimList_eq] at h
  have hne : (l.rdropWhile rustIsWhitespace).dropWhile rustIsWhitespace ≠ [] := by
    intro hnil
    rw [hnil] at h
    exact absurd h (by simp)
  obtain ⟨t, ht⟩ := List.dropWhile_suffix (l := l.rdropWhile rustIsWhitespace)
    rustIsWhitespace
  have hlast : (l.rdropWhile rustIsWhitespace).getLast? = some c := by
    rw [← ht, List.getLast?_append_of_ne_nil _ hne, h]
  have hmne : l.rdropWhile rustIsWhitespace ≠ [] := by
    intro h0
    rw [h0] at hlast
    exact absurd hlast (by simp)
  have hnotws := List.rdropWhile_last_not rustIsWhitespace l hmne
  rw [List.getLast?_eq_getLast_of_ne_nil hmne] at hlast
  injection hlast with hlast
  rw [← hlast]
  simpa using hnotws

/-- Flattening the single-paragraph single-run envelope yields the text plus
the per-paragraph newline. -/
theorem flattenBody_envelope (t : String) :
    flattenBody ⟨[⟨[⟨t⟩]⟩]⟩ = t ++ "\n" := by
  show ("" ++ t) ++ "\n" = t ++ "\n"
  rw [String.empty_append]

/-- A string with a newline appended is never empty. -/
theorem append_newline_ne_empty (t : String) : t ++ "\n" ≠ "" := by
  intro h
  have h2 := congrArg (fun s : String => s.data.length) h
  simp only [String.data_append, List.length_append] at h2
  have h3 : ("\n" : String).data.length = 1 := rfl
  have h4 : ("" : String).data.length = 0 := rfl
  rw [h3, h4] at h2
  omega

/-- C6 (amended): `add_comment` embeds the input text unchanged as the single
text run of the single paragraph of the document envelope; flattening that
envelope yields the text followed by the paragraph newline, and the rendered
(trimmed) round trip yields exactly the original text whenever it has no
leading or trailing whitespace. -/
theorem c6_add_comment_roundtrip (t : String) :
    parseCommentBody (addCommentBodyJson t) = some ⟨[⟨[⟨t⟩]⟩]⟩ ∧
    flattenBody ⟨[⟨[⟨t⟩]⟩]⟩ = t ++ "\n" ∧
    (rustTrim t = t → renderedCommentBody (some ⟨[⟨[⟨t⟩]⟩]⟩) = t) := by
  refine ⟨rfl, flattenBody_envelope t, ?_⟩
  intro ht
  have hflat : flattenOptBody (some ⟨[⟨[⟨t⟩]⟩]⟩) = t ++ "\n" :=
    flattenBody_envelope t
  rw [renderedCommentBody, commentBodyText, hflat,
    if_neg (append_newline_ne_empty t), rustTrim_append_newline, ht]

/-- Witness for C6 at whitespace-free text. -/
theorem c6_add_comment_roundtrip_witness :
    rustTrim "hello" = "hello" ∧
    renderedCommentBody (some ⟨[⟨[⟨"hello"⟩]⟩]⟩) = "hello" :=
  ⟨by decide, (c6_add_comment_roundtrip "hello").2.2 (by decide)⟩

/-- C6 counterexample: for the input text `" a"` (leading space), the
round trip through the rendering formatter yields `"a"`, not the original
text — the claim's "yields exactly t" fails for texts with boundary
whitespace, because the rendered body is trimmed. -/
theorem c6_add_comment_roundtrip_cex :
    parseCommentBody (addCommentBodyJson " a") = some ⟨[⟨[⟨" a"⟩]⟩]⟩ ∧
    renderedCommentBody (some ⟨[⟨[⟨" a"⟩]⟩]⟩) = "a" ∧
    renderedCommentBody (some ⟨[⟨[⟨" a"⟩]⟩]⟩) ≠ " a" :=
  ⟨rfl, by decide, by decide⟩

/-- The paragraph fold always ends in the appended `'\n'` when at least one
paragraph is present. -/
theorem flattenPars_getLast_newline (ps : List Paragraph) (acc : String)
    (h : ps ≠ []) :
    (ps.foldl flattenParagraph acc).data.getLast? = some '\n' := by
  induction ps generalizing acc with
  | nil => exact absurd rfl h
  | cons p ps ih =>
    by_cases hps : ps = []
    · subst hps
      show (flattenParagraph acc p).data.getLast? = some '\n'
      unfold flattenParagraph
      rw [String.data_append]
      exact List.getLast?_concat _
    · exact ih (flattenParagraph acc p) hps

/-- A body with at least one paragraph flattens to a nonempty string. -/
theorem flattenBody_ne_empty (body : CommentBody) (h : body.content ≠ []) :
    flattenBody body ≠ "" := by
  intro h0
  have h1 : (flattenBody body).data.getLast? = some '\n' :=
    flattenPars_getLast_newline body.content "" h
  rw [h0] at h1
  exact absurd h1 (by decide)

/-- The text-run fold preserves all-whitespace content. -/
theorem flattenRuns_all_ws (tns : List TextNode) (acc : String)
    (hacc : acc.data.all rustIsWhitespace)
    (h : ∀ tn ∈ tns, tn.text.data.all rustIsWhitespace) :
    (tns.foldl (fun a tn => a ++ tn.text) acc).data.all rustIsWhitespace := by
  induction tns generalizing acc with
  | nil => exact hacc
  | cons tn tns ih =>
    apply ih
    · rw [String.data_append, List.all_append]
      simp [hacc, h tn (List.mem_cons_self tn tns)]
    · intro tn' h'
      exact h tn' (List.mem_cons_of_mem _ h')

/-- The paragraph fold preserves all-whitespace content (the separator is the
whitespace character `'\n'`). -/
theorem flattenPars_all_ws (ps : List Paragraph) (acc : String)
    (hacc : acc.data.all rustIsWhitespace)
    (h : ∀ p ∈ ps, ∀ tn ∈ p.content, tn.text.data.all rustIsWhitespace) :
    (ps.foldl flattenParagraph acc).data.all rustIsWhitespace := by
  induction ps generalizing acc with
  | nil => exact hacc
  | cons p ps ih =>
    apply ih
    · unfold flattenParagraph
      rw [String.data_append, List.all_append]
      have hruns := flattenRuns_all_ws p.content acc hacc
        (h p (List.mem_cons_self p ps))
      simp [hruns]
      decide
    · intro p' hp' tn' h'
      exact h p' (List.mem_cons_of_mem _ hp') tn' h'

/-- C10: the `No content` placeholder arises exactly when the flattened body
text is empty before trimming; a body with at least one paragraph whose runs
are all whitespace passes the emptiness check and renders as the empty
(trimmed) string rather than the placeholder; and the rendered body never
carries leading or trailing whitespace. -/
theorem c10_no_content_and_trim :
    (∀ b : Option CommentBody,
      flattenOptBody b = "" → commentBodyText b = "No content") ∧
    (∀ b : Option CommentBody, flattenOptBody b ≠ "" →
      commentBodyText b = flattenOptBody b ∧
      renderedCommentBody b = rustTrim (flattenOptBody b)) ∧
    (∀ body : CommentBody, body.content ≠ [] →
      (∀ p ∈ body.content, ∀ tn ∈ p.content, tn.text.data.all rustIsWhitespace) →
      flattenOptBody (some body) ≠ "" ∧
      renderedCommentBody (some body) = "") ∧
    (∀ (b : Option CommentBody) (c : Char),
      ((renderedCommentBody b).data.head? = some c →
        rustIsWhitespace c = false) ∧
      ((renderedCommentBody b).data.getLast? = some c →
        rustIsWhitespace c = false)) := by
  have hbranch : ∀ b : Option CommentBody, flattenOptBody b ≠ "" →
      commentBodyText b = flattenOptBody b := by
    intro b hb
    rw [commentBodyText, if_neg hb]
  refine ⟨?_, ?_, ?_, ?_⟩
  · intro b hb
    rw [commentBodyText, if_pos hb]
  · intro b hb
    exact ⟨hbranch b hb, by rw [renderedCommentBody, hbranch b hb]⟩
  · intro body hne hws
    have hflat : flattenOptBody (some body) ≠ "" := flattenBody_ne_empty body hne
    refine ⟨hflat, ?_⟩
    rw [renderedCommentBody, hbranch _ hflat]
    exact rustTrim_all_ws _ (flattenPars_all_ws body.content "" (by decide) hws)
  · intro b c
    exact ⟨rustTrimList_head_not_ws (commentBodyText b).data c,
           rustTrimList_getLast_not_ws (commentBodyText b).data c⟩

/-- Witness for C10 at a body holding one paragraph with a single
all-whitespace run. -/
theorem c10_no_content_and_trim_witness :
    flattenOptBody (some ⟨[⟨[⟨" "⟩]⟩]⟩) ≠ "" ∧
    renderedCommentBody (some ⟨[⟨[⟨" "⟩]⟩]⟩) = "" ∧
    commentBodyText none = "No content" :=
  ⟨(c10_no_content_and_trim.2.2.1 ⟨[⟨[⟨" "⟩]⟩]⟩ (by decide) (by decide)).1,
   (c10_no_content_and_trim.2.2.1 ⟨[⟨[⟨" "⟩]⟩]⟩ (by decide) (by decide)).2,
   c10_no_content_and_trim.1 none rfl⟩

/-- C7: an issue with every optional field absent renders all the fixed
placeholders (`Unknown` status, `No summary`, `Unassigned`, `None` priority,
`Unknown` timestamps), and whenever an assignee is present the rendered
assignee is the display name followed by a parenthetical holding the account
id when present and `No ID` when absent — the parenthetical is never
omitted. -/
theorem c7_format_issue_placeholders :
    (∀ (id key url : String) (descr : Option Json),
      formatIssue ⟨id, key, url,
          ⟨none, none, none, none, none, none, none, descr, none⟩⟩ =
        "# " ++ key ++
          " - No summary\n\n**Type:** Unknown\n**Status:** Unknown\n**Assignee:** Unassigned\n**Priority:** None\n**Created:** Unknown\n**Updated:** Unknown\n**URL:** " ++
          url ++ "\n") ∧
    (∀ (i : Issue) (u : User), i.fields.assignee = some u →
      ∃ p q, formatIssue i =
        p ++ ("**Assignee:** " ++ u.display_name ++ " (" ++
          u.account_id.getD "No ID" ++ ")") ++ q) := by
  constructor
  · intro id key url descr
    refine String.ext ?_
    simp only [formatIssue, commentsSection, Option.map_none', Option.getD_none,
      String.data_append, String.append_empty, List.append_assoc]
    congr 1
  · intro i u hA
    refine ⟨"# " ++ i.key ++ " - " ++ (i.fields.summary.getD "No summary") ++
      "\n\n**Type:** " ++
      ((i.fields.issue_type.map IssueType.name).getD "Unknown") ++
      "\n**Status:** " ++
      ((i.fields.status.map Status.name).getD "Unknown") ++ "\n",
      "\n**Priority:** " ++ ((i.fields.priority.map Priority.name).getD "None") ++
      "\n**Created:** " ++ (i.fields.created.getD "Unknown") ++
      "\n**Updated:** " ++ (i.fields.updated.getD "Unknown") ++
      "\n**URL:** " ++ i.self_url ++ "\n" ++ commentsSection i.fields, ?_⟩
    simp only [formatIssue, hA, Option.map_some', Option.getD_some, formatUserParen]
    rw [show ("\n**Assignee:** " : String) = "\n" ++ "**Assignee:** " from rfl]
    refine String.ext ?_
    simp only [String.data_append, List.append_assoc]

/-- Witness for C7 at an assignee with no account id: the parenthetical
renders `No ID` rather than being omitted. -/
theorem c7_format_issue_placeholders_witness :
    ∃ p q, formatIssue ⟨"1", "K", "u",
        ⟨none, none, some ⟨"Alice", none, none⟩, none, none, none, none,
         none, none⟩⟩ =
      p ++ ("**Assignee:** " ++ "Alice" ++ " (" ++ "No ID" ++ ")") ++ q :=
  c7_format_issue_placeholders.2
    ⟨"1", "K", "u", ⟨none, none, some ⟨"Alice", none, none⟩, none, none, none,
      none, none, none⟩⟩ ⟨"Alice", none, none⟩ rfl

/-- C5: a search response with the three count keys absent deserializes to a
`SearchResult` whose counts are all the explicit unknown `none` — not zero —
and the search-result formatter renders such an absent total as `unknown`:
its output opens with `Found unknown issues (showing ...`, never reporting
the absent count as `0`. -/
theorem c5_absent_counts_unknown (issuesJson : List Json) (issues : List Issue)
    (h : issuesJson.mapM parseIssue = some issues) :
    parseSearchResult (Json.obj [("issues", Json.arr issuesJson)]) =
      some ⟨none, none, none, issues⟩ ∧
    showCount none = "unknown" ∧
    (∀ n, showCount (some n) = toString n) ∧
    (∃ rest, formatSearchResult ⟨none, none, none, issues⟩ =
      "Found unknown issues (showing " ++ rest) := by
  refine ⟨?_, rfl, fun _ => rfl, ?_⟩
  · simp [parseSearchResult, jsonField, List.lookup, parseOptWith]
    rw [show List.mapM.loop parseIssue issuesJson [] = some issues from h]
    rfl
  · refine ⟨toString issues.length ++ " of " ++ "unknown" ++ "):\n\n" ++
      issues.foldl (fun acc i => acc ++ searchIssueLine i) "", ?_⟩
    rw [show ("Found unknown issues (showing " : String) =
      "Found " ++ "unknown" ++ " issues (showing " from rfl]
    simp only [formatSearchResult, showCount]
    refine String.ext ?_
    simp only [String.data_append, List.append_assoc]

/-- Witness for C5 at the empty issue list. -/
theorem c5_absent_counts_unknown_witness :
    parseSearchResult (Json.obj [("issues", Json.arr [])]) =
      some ⟨none, none, none, []⟩ ∧
    (∃ rest, formatSearchResult ⟨none, none, none, []⟩ =
      "Found unknown issues (showing " ++ rest) :=
  ⟨(c5_absent_counts_unknown [] [] rfl).1,
   (c5_absent_counts_unknown [] [] rfl).2.2.2⟩

end JiraMcp
